import Mathlib

/-!
Verification of the Dependency Registry cache/refresh subsystem of `riff`
(`src/dependency_registry/mod.rs`).

The embedding is shallow: the Rust data types become Lean structures, the
bootstrap sequence (`DependencyRegistry::new`, lines 45-150) and the spawned
refresh task body (lines 79-140) become pure Lean functions over explicit
parameters that stand for the outcomes of the external collaborators
(XDG directory resolution, file I/O, serde_json, reqwest, Telemetry).
External-library calls are modelled by their observable outcomes, never by
their internals; everything the repository's own code does with those
outcomes is translated line by line.
-/

/-- Modelled from the spec: the language-specific payload type
`RustDependencyRegistryData` lives in `src/dependency_registry/rust.rs`,
which is not among the provided sources.  The spec treats it as an opaque
"language-specific payload (e.g. a table for one language's
dependency→package mappings)", so we model it as an opaque finite table. -/
structure RustDependencyRegistryData where
  table : List (String × String)
deriving DecidableEq, Repr

instance : Inhabited RustDependencyRegistryData := ⟨⟨[]⟩⟩

/-- `DependencyRegistryLanguageData` (mod.rs lines 173-176): one field per
supported language; currently only `rust`. -/
structure DependencyRegistryLanguageData where
  rust : RustDependencyRegistryData
deriving DecidableEq, Repr

instance : Inhabited DependencyRegistryLanguageData := ⟨⟨default⟩⟩

/-- `DependencyRegistryData` (mod.rs lines 167-171): the registry snapshot,
`version` ("Checked for ABI compat") plus the language table.  `usize`
is modelled as `Nat` (versions are small; no arithmetic is performed on
them, so no overflow reduction is needed). -/
structure DependencyRegistryData where
  version : Nat
  language : DependencyRegistryLanguageData
deriving DecidableEq, Repr

instance : Inhabited DependencyRegistryData := ⟨⟨0, default⟩⟩

/-- `DependencyRegistryError` (mod.rs lines 24-36).  The payloads of the
first four variants are foreign error types carrying no information the
subsystem inspects, so they are dropped; `WrongVersion` keeps its `usize`
payload. -/
inductive DependencyRegistryError where
  | BaseDirectories
  | Io
  | Json
  | Reqwest
  | WrongVersion (got : Nat)
deriving DecidableEq, Repr

/-- A serialized registry text as the code observes it: the code checks
`String::is_empty` on the raw text (line 64) and hands it to
`serde_json::from_str` (lines 70, 107).  serde_json is an external
collaborator, so a text is modelled by its raw string together with its
parse outcome (`none` = serde error, `some d` = parses to `d`). -/
structure SerializedText where
  raw : String
  parsed : Option DependencyRegistryData
deriving DecidableEq, Repr

/-- Modelled from the spec: the embedded fallback payload
(`DEPENDENCY_REGISTRY_FALLBACK = include_str!("../../registry.json")`,
mod.rs line 22) is baked in at build time and the file `registry.json` is
not among the provided sources.  The spec fixes its contract: same
serialized format as the cache file and "must itself satisfy
ExpectedVersion", i.e. it is a non-empty text parsing to a version-1
snapshot. -/
def DEPENDENCY_REGISTRY_FALLBACK : SerializedText :=
  { raw := "\x7b\"version\":1,\"language\":\x7b\"rust\":\x7b\x7d\x7d\x7d"
  , parsed := some { version := 1, language := default } }

/-- The in-memory store (mod.rs lines 38-41).  `data` is the content of the
`Arc<RwLock<DependencyRegistryData>>`; `refresh_handle` models the
`Option<JoinHandle<()>>`: `none` when no refresh task was spawned, and
`some finished` when one was, where `finished` is the value
`JoinHandle::is_finished()` returns at the moment the store is queried. -/
structure DependencyRegistry where
  data : DependencyRegistryData
  refresh_handle : Option Bool
deriving DecidableEq, Repr

/-- Outcomes of the external steps the bootstrap sequence depends on:
XDG base-directory resolution / cache-file placement (lines 46-49),
opening and reading the cache file (lines 51-61), and the text obtained
from it (empty string when the file was just created). -/
structure BootstrapEnv where
  baseDirectoriesOk : Bool
  cacheFileOk : Bool
  cacheContent : SerializedText
deriving DecidableEq, Repr

/-- `DependencyRegistry::new` (mod.rs lines 45-150), bootstrap part.
Line-by-line: XDG resolution errors (`?` on lines 46, 49) and file
open/read errors (`?` on lines 57, 61) propagate; an empty content string
is replaced by the embedded fallback text (lines 64-68); the resulting
text is parsed, a serde error propagating (`?` on line 70); a parsed
version different from 1 is rejected with `WrongVersion` (lines 71-73);
otherwise the snapshot is installed and, unless `offline`, the refresh
task is spawned and its join handle retained (lines 76-144).
`taskFinished` is the completion status the retained handle will report
when later observed (it does not influence construction). -/
def DependencyRegistry.new (offline : Bool) (env : BootstrapEnv)
    (taskFinished : Bool) : Except DependencyRegistryError DependencyRegistry :=
  if !env.baseDirectoriesOk then .error .BaseDirectories
  else if !env.cacheFileOk then .error .Io
  else
    let cached_registry_content :=
      if env.cacheContent.raw.isEmpty then DEPENDENCY_REGISTRY_FALLBACK
      else env.cacheContent
    match cached_registry_content.parsed with
    | none => .error .Json
    | some data =>
      if data.version ≠ 1 then .error (.WrongVersion data.version)
      else .ok { data := data
               , refresh_handle := if !offline then some taskFinished else none }

/-- `DependencyRegistry::fresh` (mod.rs lines 152-159): true when a refresh
handle exists and reports finished; false when offline (no handle). -/
def DependencyRegistry.fresh (self : DependencyRegistry) : Bool :=
  match self.refresh_handle with
  | some handle => handle
  | none => false

/-- `DependencyRegistry::language` (mod.rs lines 161-163): acquire the read
lock and project the `language` field of the current snapshot. -/
def DependencyRegistry.language (current : DependencyRegistryData) :
    DependencyRegistryLanguageData :=
  current.language

/-- Rust's `str::trim` (used on the fetched body at mod.rs line 130): the
text with leading and trailing whitespace removed.  `str::trim` is part of
the Rust standard library (an external collaborator), modelled here
structurally over the character list so it is computable by the kernel. -/
def rustTrim (s : String) : String :=
  ⟨((s.data.dropWhile Char.isWhitespace).reverse.dropWhile
      Char.isWhitespace).reverse⟩

/-- Outcome of the refresh task's network fetch: `req.send()` failing
(lines 93-99), `res.text()` failing (lines 100-106), or a body `content`
obtained. -/
inductive FetchOutcome where
  | sendError
  | bodyError
  | ok (content : SerializedText)
deriving DecidableEq, Repr

/-- Outcomes of the external steps the refresh task depends on.
`telemetry` is the result of
`Telemetry::new().await.as_header_data()` (line 82): per the spec this
best-effort construction yields an optional opaque header value or fails;
we model it as `Except Unit (Option String)`.  `cacheOpenOk` is the
truncating reopen of the cache file (lines 116-128), `cacheWriteOk` the
`write_all` (lines 129-139). -/
structure RefreshEnv where
  telemetry : Except Unit (Option String)
  fetch : FetchOutcome
  cacheOpenOk : Bool
  cacheWriteOk : Bool
deriving Repr

/-- Externally visible actions the refresh task performs, in the order it
performs them, used to state ordering properties of the task body. -/
inductive RefreshEvent where
  | sendRequest (withTelemetryHeader : Bool)
  | installSnapshot (d : DependencyRegistryData)
  | truncateCacheFile
  | writeCacheFile (text : String)
deriving DecidableEq, Repr

/-- Result of one run of the refresh task: the in-memory snapshot, the
cache file's text afterwards, and the trace of actions performed. -/
structure RefreshResult where
  data : DependencyRegistryData
  cacheFile : String
  events : List RefreshEvent
deriving DecidableEq, Repr

/-- The spawned refresh task body (mod.rs lines 79-140), as a function of
the outcomes of its external steps and of the state it starts from
(`data0` = snapshot installed at bootstrap, `cacheFile0` = cache file
text).  Line-by-line: the `?` on line 82 propagates a telemetry
construction error out of the task, aborting it before any request is
built; otherwise the request is sent with the header attached when the
optional value is present (lines 83-92); send failure, body-read failure
and parse failure each log and `return` with no state touched (lines
93-113); on parse success the whole snapshot is replaced under the write
lock (line 114); then the cache file is reopened with `truncate(true)`,
failure logging and returning (lines 116-128); then the trimmed body is
written, failure logging and returning (lines 129-139).  A failed
`write_all` after a successful truncating open leaves the file in an
unspecified partially-written state; no claim depends on it, and we model
it as the truncated (empty) file. -/
def refreshTask (env : RefreshEnv) (data0 : DependencyRegistryData)
    (cacheFile0 : String) : RefreshResult :=
  match env.telemetry with
  | .error _ => { data := data0, cacheFile := cacheFile0, events := [] }
  | .ok telemetry =>
    let sendEv := RefreshEvent.sendRequest telemetry.isSome
    match env.fetch with
    | .sendError => { data := data0, cacheFile := cacheFile0, events := [sendEv] }
    | .bodyError => { data := data0, cacheFile := cacheFile0, events := [sendEv] }
    | .ok content =>
      match content.parsed with
      | none => { data := data0, cacheFile := cacheFile0, events := [sendEv] }
      | some fresh_data =>
        let installEv := RefreshEvent.installSnapshot fresh_data
        if !env.cacheOpenOk then
          { data := fresh_data, cacheFile := cacheFile0
          , events := [sendEv, installEv] }
        else if !env.cacheWriteOk then
          { data := fresh_data, cacheFile := ""
          , events := [sendEv, installEv, .truncateCacheFile] }
        else
          { data := fresh_data, cacheFile := rustTrim content.raw
          , events := [sendEv, installEv, .truncateCacheFile,
                       .writeCacheFile (rustTrim content.raw)] }

/-- One interaction with the `RwLock`-guarded snapshot: a consumer calling
`language()` (a read-locked whole-value read, lines 161-163) or the
refresher executing `*data.write().await = fresh_data` (a write-locked
whole-value replacement, line 114).  The lock serializes these, so a
history is a sequence of such events. -/
inductive StoreEvent where
  | read
  | write
deriving DecidableEq, Repr

/-- Runs a serialized history of lock-guarded events against the shared
snapshot, starting from `cur`; each `write` replaces the whole snapshot
with `newData` (line 114 assigns the entire struct, not fields), each
`read` records the `language` view it observes (lines 161-163).  Returns
the observations in order. -/
def observeTrace (newData : DependencyRegistryData) :
    List StoreEvent → DependencyRegistryData → List DependencyRegistryLanguageData
  | [], _ => []
  | .read :: rest, cur => DependencyRegistry.language cur :: observeTrace newData rest cur
  | .write :: rest, _cur => observeTrace newData rest newData

/-! Concrete sample values used by counterexamples and witnesses. -/

/-- A version-1 snapshot. -/
def exSnapV1 : DependencyRegistryData := { version := 1, language := default }

/-- A version-2 snapshot. -/
def exSnapV2 : DependencyRegistryData := { version := 2, language := default }

/-- A well-formed version-1 registry text. -/
def exTextV1 : SerializedText :=
  { raw := "\x7b\"version\":1,\"language\":\x7b\"rust\":\x7b\x7d\x7d\x7d"
  , parsed := some exSnapV1 }

/-- A well-formed version-2 registry text. -/
def exTextV2 : SerializedText :=
  { raw := "\x7b\"version\":2,\"language\":\x7b\"rust\":\x7b\x7d\x7d\x7d"
  , parsed := some exSnapV2 }

/-- A non-empty text that serde_json rejects. -/
def exBadText : SerializedText := { raw := "not json", parsed := none }

/-- The empty text read from a freshly created cache file. -/
def exEmptyText : SerializedText := { raw := "", parsed := none }

/-- A bootstrap environment whose cache file holds the version-1 text. -/
def exEnvV1 : BootstrapEnv :=
  { baseDirectoriesOk := true, cacheFileOk := true, cacheContent := exTextV1 }

/-- A bootstrap environment whose cache file holds the version-2 text. -/
def exEnvV2 : BootstrapEnv :=
  { baseDirectoriesOk := true, cacheFileOk := true, cacheContent := exTextV2 }

/-- A bootstrap environment whose cache file is empty. -/
def exEnvEmpty : BootstrapEnv :=
  { baseDirectoriesOk := true, cacheFileOk := true, cacheContent := exEmptyText }

/-- A bootstrap environment whose cache file holds malformed text. -/
def exEnvBad : BootstrapEnv :=
  { baseDirectoriesOk := true, cacheFileOk := true, cacheContent := exBadText }

/-- C3: whenever the text the bootstrap actually parses (the cache text, or
the embedded fallback substituted for an empty cache) yields a snapshot
whose version is not 1, `DependencyRegistry::new` fails with
`WrongVersion` carrying that version, for either origin of the text. -/
theorem C3_wrong_version_is_fatal (offline fin : Bool) (env : BootstrapEnv)
    (d : DependencyRegistryData)
    (h1 : env.baseDirectoriesOk = true) (h2 : env.cacheFileOk = true)
    (hparse : (if env.cacheContent.raw.isEmpty then DEPENDENCY_REGISTRY_FALLBACK
               else env.cacheContent).parsed = some d)
    (hv : d.version ≠ 1) :
    DependencyRegistry.new offline env fin =
      .error (.WrongVersion d.version) := by
  simp only [DependencyRegistry.new, h1, h2, Bool.not_true, Bool.false_eq_true,
    if_false, hparse, hv, ite_true, ne_eq, not_false_eq_true]

/-- C3 witness: bootstrapping from a cache file holding a version-2 text
fails with `WrongVersion 2`. -/
theorem C3_wrong_version_is_fatal_witness :
    exEnvV2.baseDirectoriesOk = true ∧ exEnvV2.cacheFileOk = true ∧
    (if exEnvV2.cacheContent.raw.isEmpty then DEPENDENCY_REGISTRY_FALLBACK
     else exEnvV2.cacheContent).parsed = some exSnapV2 ∧
    exSnapV2.version ≠ 1 ∧
    DependencyRegistry.new true exEnvV2 false =
      .error (.WrongVersion exSnapV2.version) :=
  ⟨rfl, rfl, by decide, by decide,
   C3_wrong_version_is_fatal true false exEnvV2 exSnapV2 rfl rfl
     (by decide) (by decide)⟩

/-- C6: for any store `open` constructs, `is_fresh()` is true exactly when a
refresh task was spawned (`offline = false`) and the retained handle
reports it has run to completion; it is false when opened offline or while
the task is still in flight. -/
theorem C6_fresh_iff_spawned_and_finished (offline fin : Bool)
    (env : BootstrapEnv) (reg : DependencyRegistry)
    (h : DependencyRegistry.new offline env fin = .ok reg) :
    reg.fresh = true ↔ (offline = false ∧ fin = true) := by
  simp only [DependencyRegistry.new] at h
  split at h
  · exact absurd h (by simp)
  · split at h
    · exact absurd h (by simp)
    · split at h
      · exact absurd h (by simp)
      · split at h
        · exact absurd h (by simp)
        · rw [Except.ok.injEq] at h
          subst h
          cases offline <;> cases fin <;>
            simp [DependencyRegistry.fresh]

/-- C6 witness: opening online from a version-1 cache with the refresh task
already completed reports fresh. -/
theorem C6_fresh_iff_spawned_and_finished_witness :
    DependencyRegistry.new false exEnvV1 true =
      .ok { data := exSnapV1, refresh_handle := some true } ∧
    (DependencyRegistry.fresh { data := exSnapV1, refresh_handle := some true }
      = true ↔ (false = false ∧ true = true)) :=
  ⟨rfl,
   C6_fresh_iff_spawned_and_finished false true exEnvV1
     { data := exSnapV1, refresh_handle := some true } rfl⟩

/-- C7: when the text read from the cache file is empty, bootstrap
substitutes the embedded fallback before parsing, so the whole result of
`open` is identical to that of a bootstrap whose cache file holds exactly
the fallback payload. -/
theorem C7_empty_cache_equals_fallback_cache (offline fin : Bool)
    (env : BootstrapEnv) (h : env.cacheContent.raw.isEmpty = true) :
    DependencyRegistry.new offline env fin =
      DependencyRegistry.new offline
        { baseDirectoriesOk := env.baseDirectoriesOk
        , cacheFileOk := env.cacheFileOk
        , cacheContent := DEPENDENCY_REGISTRY_FALLBACK } fin := by
  have hfb : DEPENDENCY_REGISTRY_FALLBACK.raw.isEmpty = false := by decide
  simp only [DependencyRegistry.new, h, hfb, if_true, if_false,
    Bool.false_eq_true]

/-- C7 witness: an empty cache file and a cache file holding exactly the
fallback payload bootstrap to identical stores. -/
theorem C7_empty_cache_equals_fallback_cache_witness :
    exEnvEmpty.cacheContent.raw.isEmpty = true ∧
    DependencyRegistry.new true exEnvEmpty false =
      DependencyRegistry.new true
        { baseDirectoriesOk := exEnvEmpty.baseDirectoriesOk
        , cacheFileOk := exEnvEmpty.cacheFileOk
        , cacheContent := DEPENDENCY_REGISTRY_FALLBACK } false :=
  ⟨by decide, C7_empty_cache_equals_fallback_cache true false exEnvEmpty (by decide)⟩

/-- C8: a non-empty cache text that serde_json rejects makes `open` fail
with the JSON parse error; the fallback is not consulted (the result is
the error, not a store built from the fallback). -/
theorem C8_malformed_cache_is_fatal (offline fin : Bool) (env : BootstrapEnv)
    (h1 : env.baseDirectoriesOk = true) (h2 : env.cacheFileOk = true)
    (h3 : env.cacheContent.raw.isEmpty = false)
    (h4 : env.cacheContent.parsed = none) :
    DependencyRegistry.new offline env fin = .error .Json := by
  simp only [DependencyRegistry.new, h1, h2, h3, h4, Bool.not_true,
    Bool.false_eq_true, if_false]

/-- C8 witness: the concrete malformed cache text fails with the JSON
error. -/
theorem C8_malformed_cache_is_fatal_witness :
    exEnvBad.baseDirectoriesOk = true ∧ exEnvBad.cacheFileOk = true ∧
    exEnvBad.cacheContent.raw.isEmpty = false ∧
    exEnvBad.cacheContent.parsed = none ∧
    DependencyRegistry.new true exEnvBad false = .error .Json :=
  ⟨rfl, rfl, by decide, rfl,
   C8_malformed_cache_is_fatal true false exEnvBad rfl rfl (by decide) rfl⟩

/-- A refresh environment in which everything succeeds and the fetched body
is the version-2 text. -/
def exRefreshEnvV2 : RefreshEnv :=
  { telemetry := .ok none, fetch := .ok exTextV2
  , cacheOpenOk := true, cacheWriteOk := true }

/-- A refresh environment in which the network send fails. -/
def exRefreshEnvSendFail : RefreshEnv :=
  { telemetry := .ok none, fetch := .sendError
  , cacheOpenOk := true, cacheWriteOk := true }

/-- A refresh environment in which telemetry construction fails while every
later step would have succeeded. -/
def exRefreshEnvTelemetryFail : RefreshEnv :=
  { telemetry := .error (), fetch := .ok exTextV2
  , cacheOpenOk := true, cacheWriteOk := true }

/-- C4: when the refresh fails at request send, at body read, or at body
parse, the task returns normally having only issued the request: the
in-memory snapshot and the cache file text are exactly the ones bootstrap
installed, and no install, truncate or write action was performed (no
partial writes). -/
theorem C4_refresh_failure_leaves_state (env : RefreshEnv) (t : Option String)
    (d0 : DependencyRegistryData) (c0 : String)
    (ht : env.telemetry = .ok t)
    (hf : env.fetch = .sendError ∨ env.fetch = .bodyError ∨
          ∃ content, env.fetch = .ok content ∧ content.parsed = none) :
    refreshTask env d0 c0 =
      { data := d0, cacheFile := c0
      , events := [.sendRequest t.isSome] } := by
  rcases hf with hf | hf | ⟨content, hf, hp⟩
  · simp only [refreshTask, ht, hf]
  · simp only [refreshTask, ht, hf]
  · simp only [refreshTask, ht, hf, hp]

/-- C4 witness: a send failure leaves the version-1 bootstrap state
untouched. -/
theorem C4_refresh_failure_leaves_state_witness :
    exRefreshEnvSendFail.telemetry = .ok none ∧
    exRefreshEnvSendFail.fetch = .sendError ∧
    refreshTask exRefreshEnvSendFail exSnapV1 exTextV1.raw =
      { data := exSnapV1, cacheFile := exTextV1.raw
      , events := [.sendRequest (Option.isSome (none : Option String))] } :=
  ⟨rfl, rfl,
   C4_refresh_failure_leaves_state exRefreshEnvSendFail none exSnapV1
     exTextV1.raw rfl (Or.inl rfl)⟩

/-- C5: when the fetched body parses, the fresh snapshot replaces the
in-memory snapshot unconditionally — in particular it is already installed
even when the later cache open or write fails — and only afterwards
(witnessed by the event order) is the trimmed raw text written to the
cache file via truncate-and-rewrite. -/
theorem C5_refresh_install_precedes_cache_write (env : RefreshEnv)
    (t : Option String) (content : SerializedText)
    (fresh_data d0 : DependencyRegistryData) (c0 : String)
    (ht : env.telemetry = .ok t) (hf : env.fetch = .ok content)
    (hp : content.parsed = some fresh_data) :
    (refreshTask env d0 c0).data = fresh_data ∧
    (env.cacheOpenOk = true → env.cacheWriteOk = true →
      (refreshTask env d0 c0).cacheFile = rustTrim content.raw ∧
      (refreshTask env d0 c0).events =
        [.sendRequest t.isSome, .installSnapshot fresh_data,
         .truncateCacheFile, .writeCacheFile (rustTrim content.raw)]) := by
  constructor
  · cases ho : env.cacheOpenOk <;> cases hw : env.cacheWriteOk <;>
      simp only [refreshTask, ht, hf, hp, ho, hw, Bool.not_true,
        Bool.not_false, if_true, if_false, Bool.false_eq_true]
  · intro ho hw
    constructor <;>
      simp only [refreshTask, ht, hf, hp, ho, hw, Bool.not_true,
        Bool.false_eq_true, if_false]

/-- C5 witness: a fully successful refresh fetching the version-2 text
installs it and then rewrites the cache with the trimmed body. -/
theorem C5_refresh_install_precedes_cache_write_witness :
    exRefreshEnvV2.telemetry = .ok none ∧
    exRefreshEnvV2.fetch = .ok exTextV2 ∧
    exTextV2.parsed = some exSnapV2 ∧
    ((refreshTask exRefreshEnvV2 exSnapV1 exTextV1.raw).data = exSnapV2 ∧
     (exRefreshEnvV2.cacheOpenOk = true → exRefreshEnvV2.cacheWriteOk = true →
       (refreshTask exRefreshEnvV2 exSnapV1 exTextV1.raw).cacheFile
         = rustTrim exTextV2.raw ∧
       (refreshTask exRefreshEnvV2 exSnapV1 exTextV1.raw).events =
         [.sendRequest (Option.isSome (none : Option String)), .installSnapshot exSnapV2,
          .truncateCacheFile, .writeCacheFile (rustTrim exTextV2.raw)])) :=
  ⟨rfl, rfl, rfl,
   C5_refresh_install_precedes_cache_write exRefreshEnvV2 none exTextV2
     exSnapV2 exSnapV1 exTextV1.raw rfl rfl rfl⟩

/-- C2 (failing input): when `Telemetry::new().await.as_header_data()`
returns an error, the `?` operator on mod.rs line 82 propagates it out of
the spawned task, which therefore performs no action at all — in
particular the network request is never issued, although every later step
would have succeeded.  This contradicts the claim (and the code's own
comment, "We don't want to fail if we can't build telemetry data...")
that the refresh proceeds without the header. -/
theorem C2_telemetry_failure_aborts_refresh :
    (refreshTask exRefreshEnvTelemetryFail exSnapV1 exTextV1.raw).events = []
    ∧ (refreshTask exRefreshEnvTelemetryFail exSnapV1 exTextV1.raw).data
        = exSnapV1
    ∧ (refreshTask exRefreshEnvTelemetryFail exSnapV1 exTextV1.raw).cacheFile
        = exTextV1.raw := ⟨rfl, rfl, rfl⟩

/-- C1 counterexample: a background refresh whose fetched body parses to a
version-2 snapshot installs that snapshot as the current one — the version
gate of the claim is not applied on the refresh path (mod.rs line 114
assigns the parsed data with no check of `version`). -/
theorem C1_refresh_installs_wrong_version_counterexample :
    (refreshTask exRefreshEnvV2 exSnapV1 exTextV1.raw).data = exSnapV2 ∧
    exSnapV2.version ≠ 1 :=
  ⟨rfl, by decide⟩

/-- C1 (amended): the version gate applies only at bootstrap: every store
`open` constructs holds a version-1 snapshot, while the background refresh
installs any successfully parsed snapshot as the current one regardless of
its version. -/
theorem C1_version_gate_bootstrap_only :
    (∀ (offline fin : Bool) (env : BootstrapEnv) (reg : DependencyRegistry),
        DependencyRegistry.new offline env fin = .ok reg →
        reg.data.version = 1) ∧
    (∀ (env : RefreshEnv) (t : Option String) (content : SerializedText)
        (fresh_data d0 : DependencyRegistryData) (c0 : String),
        env.telemetry = .ok t → env.fetch = .ok content →
        content.parsed = some fresh_data →
        (refreshTask env d0 c0).data = fresh_data) := by
  constructor
  · intro offline fin env reg h
    simp only [DependencyRegistry.new] at h
    split at h
    · exact absurd h (by simp)
    · split at h
      · exact absurd h (by simp)
      · split at h
        · exact absurd h (by simp)
        · split at h
          · exact absurd h (by simp)
          · rw [Except.ok.injEq] at h
            subst h
            simp_all
  · intro env t content fresh_data d0 c0 ht hf hp
    cases ho : env.cacheOpenOk <;> cases hw : env.cacheWriteOk <;>
      simp only [refreshTask, ht, hf, hp, ho, hw, Bool.not_true,
        Bool.not_false, if_true, if_false, Bool.false_eq_true]

/-- C1 (amended) witness: a bootstrap from the version-1 cache yields a
version-1 store, while the concrete wrong-version refresh installs the
version-2 snapshot. -/
theorem C1_version_gate_bootstrap_only_witness :
    ({ data := exSnapV1, refresh_handle := (none : Option Bool) }
       : DependencyRegistry).data.version = 1 ∧
    (refreshTask exRefreshEnvV2 exSnapV1 exTextV1.raw).data = exSnapV2 :=
  ⟨C1_version_gate_bootstrap_only.1 true false exEnvV1
     { data := exSnapV1, refresh_handle := none } rfl,
   C1_version_gate_bootstrap_only.2 exRefreshEnvV2 none exTextV2 exSnapV2
     exSnapV1 exTextV1.raw rfl rfl rfl⟩

/-- C10: a refresh that fetches a parseable body with a version other than
1 both installs that snapshot in memory and rewrites the cache file with
the trimmed body; any later `open` that reads that cache (same text, and
JSON parsing is unaffected by the trimming of surrounding whitespace,
hence the same parse outcome; the trimmed text of a JSON object is
non-empty, so the fallback is not substituted) fails with `WrongVersion`
carrying that version. -/
theorem C10_wrong_version_refresh_poisons_cache (env : RefreshEnv)
    (t : Option String) (content : SerializedText)
    (fresh_data d0 : DependencyRegistryData) (c0 : String)
    (env2 : BootstrapEnv) (offline2 fin2 : Bool)
    (ht : env.telemetry = .ok t) (hf : env.fetch = .ok content)
    (hp : content.parsed = some fresh_data) (hv : fresh_data.version ≠ 1)
    (ho : env.cacheOpenOk = true) (hw : env.cacheWriteOk = true)
    (h1 : env2.baseDirectoriesOk = true) (h2 : env2.cacheFileOk = true)
    (hraw : env2.cacheContent.raw = rustTrim content.raw)
    (hparse2 : env2.cacheContent.parsed = some fresh_data)
    (hne : (rustTrim content.raw).isEmpty = false) :
    (refreshTask env d0 c0).data = fresh_data ∧
    (refreshTask env d0 c0).cacheFile = rustTrim content.raw ∧
    DependencyRegistry.new offline2 env2 fin2 =
      .error (.WrongVersion fresh_data.version) := by
  have h3 : env2.cacheContent.raw.isEmpty = false := by rw [hraw]; exact hne
  refine ⟨?_, ?_, ?_⟩
  · simp only [refreshTask, ht, hf, hp, ho, hw, Bool.not_true,
      Bool.false_eq_true, if_false]
  · simp only [refreshTask, ht, hf, hp, ho, hw, Bool.not_true,
      Bool.false_eq_true, if_false]
  · simp only [DependencyRegistry.new, h1, h2, h3, hparse2, hv, Bool.not_true,
      Bool.false_eq_true, if_false, ite_true, ne_eq, not_false_eq_true]

/-- C10 witness: the version-2 text has no surrounding whitespace, so the
poisoned cache file holds exactly it, and reopening from it fails with
`WrongVersion 2`. -/
theorem C10_wrong_version_refresh_poisons_cache_witness :
    exRefreshEnvV2.telemetry = .ok none ∧
    exRefreshEnvV2.fetch = .ok exTextV2 ∧
    exTextV2.parsed = some exSnapV2 ∧ exSnapV2.version ≠ 1 ∧
    exEnvV2.cacheContent.raw = rustTrim exTextV2.raw ∧
    exEnvV2.cacheContent.parsed = some exSnapV2 ∧
    (rustTrim exTextV2.raw).isEmpty = false ∧
    ((refreshTask exRefreshEnvV2 exSnapV1 exTextV1.raw).data = exSnapV2 ∧
     (refreshTask exRefreshEnvV2 exSnapV1 exTextV1.raw).cacheFile
       = rustTrim exTextV2.raw ∧
     DependencyRegistry.new true exEnvV2 false =
       .error (.WrongVersion exSnapV2.version)) :=
  ⟨rfl, rfl, rfl, by decide, by decide, rfl, by decide,
   C10_wrong_version_refresh_poisons_cache exRefreshEnvV2 none exTextV2
     exSnapV2 exSnapV1 exTextV1.raw exEnvV2 true false rfl rfl rfl
     (by decide) rfl rfl rfl rfl (by decide) rfl (by decide)⟩

/-- Generalisation of the torn-read property over the running snapshot:
every observation of a serialized lock history starting from `cur` is the
language view of `cur` or of the written snapshot `newD`. -/
theorem observeTrace_mem_old_or_new (newD : DependencyRegistryData)
    (tr : List StoreEvent) :
    ∀ (cur : DependencyRegistryData) (obs : DependencyRegistryLanguageData),
      obs ∈ observeTrace newD tr cur →
      obs = DependencyRegistry.language cur ∨
      obs = DependencyRegistry.language newD := by
  induction tr with
  | nil =>
    intro cur obs h
    simp only [observeTrace, List.not_mem_nil] at h
  | cons e rest ih =>
    intro cur obs h
    cases e with
    | read =>
      simp only [observeTrace, List.mem_cons] at h
      rcases h with h | h
      · exact Or.inl h
      · exact ih cur obs h
    | write =>
      simp only [observeTrace] at h
      rcases ih newD obs h with h | h
      · exact Or.inr h
      · exact Or.inr h

/-- C9: under the single reader-writer lock, the refresher's installation is
a whole-value replacement, so every `language_view()` read in any
serialized history of reads and the one write observes either the complete
old snapshot's language table or the complete new snapshot's language
table, never a mixture. -/
theorem C9_reads_see_old_or_new (oldD newD : DependencyRegistryData)
    (tr : List StoreEvent) (obs : DependencyRegistryLanguageData)
    (h : obs ∈ observeTrace newD tr oldD) :
    obs = DependencyRegistry.language oldD ∨
    obs = DependencyRegistry.language newD :=
  observeTrace_mem_old_or_new newD tr oldD obs h

/-- A snapshot whose language table differs from the default one, used to
exercise the torn-read property with genuinely distinct snapshots. -/
def exSnapB : DependencyRegistryData :=
  { version := 1, language := ⟨⟨[("tokio", "pkg-config")]⟩⟩ }

/-- C9 witness: in the history read-write-read starting from the version-1
snapshot and writing `exSnapB`, the observation of the second read is the
complete new language table. -/
theorem C9_reads_see_old_or_new_witness :
    DependencyRegistry.language exSnapB ∈
      observeTrace exSnapB [.read, .write, .read] exSnapV1 ∧
    (DependencyRegistry.language exSnapB = DependencyRegistry.language exSnapV1
     ∨ DependencyRegistry.language exSnapB
         = DependencyRegistry.language exSnapB) :=
  ⟨by decide,
   C9_reads_see_old_or_new exSnapV1 exSnapB [.read, .write, .read]
     (DependencyRegistry.language exSnapB) (by decide)⟩
